import Mathlib

/-
A shallow embedding of `src/prefect/backend/flow.py`: the `FlowView` facade,
its three lookup entry points (`from_flow_id`, `from_flow_obj`,
`from_flow_name`), the query helpers `query_for_flow` / `query_for_flows`,
and the record deserializer `from_flow_data`.

Python's dynamically typed data is embedded as the inductive `Value`;
Python dicts are insertion-ordered association lists; exceptions are the
inductive `Err` carried in `Except`; the transport client and the two
schema loaders (`FlowSchema().load`, `StorageSchema().load`), which live
outside the translated module, are explicit function parameters.  Each
operation returns, alongside its result, the list of GraphQL requests it
issued to the transport, so that "no transport call happens" is a provable
statement.
-/

namespace Prefect

/-- Python-like dynamic values exchanged with the backend: JSON-style data
plus the GraphQL `EnumValue` wrapper this module uses to splice raw tokens
(such as the variable reference `$serialized_flow`) into a query. -/
inductive Value where
  | null : Value
  | bool : Bool → Value
  | int : Int → Value
  | str : String → Value
  | list : List Value → Value
  | dict : List (String × Value) → Value
  | enumValue : String → Value

/-- A Python dict with string keys: an insertion-ordered association list. -/
abbrev PyDict := List (String × Value)

/-- Lookup of the first binding of a key, as Python `d[key]` / `d.get(key)`. -/
def dlookup : PyDict → String → Option Value
  | [], _ => none
  | (k, v) :: rest, key => if k == key then some v else dlookup rest key

/-- Python `d.pop(key)`: remove the binding of `key`, returning the value and
the remaining dict, or `none` when the key is absent (Python raises KeyError). -/
def dpop : PyDict → String → Option (Value × PyDict)
  | [], _ => none
  | (k, v) :: rest, key =>
    if k == key then some (v, rest)
    else
      match dpop rest key with
      | none => none
      | some (v2, rest2) => some (v2, (k, v) :: rest2)

/-- Python truthiness of a value (`bool(v)`), used by `if not flows:` tests. -/
def pyTruthy : Value → Bool
  | .null => false
  | .bool b => b
  | .int i => i != 0
  | .str s => s != ""
  | .list l => !l.isEmpty
  | .dict d => !d.isEmpty
  | .enumValue _ => true

/-- Whether a value is a Python `dict` (`isinstance(v, dict)`). -/
def Value.isDict : Value → Bool
  | .dict _ => true
  | _ => false

/-- Whether a value is a Python `str` (`isinstance(v, str)`). -/
def Value.isStr : Value → Bool
  | .str _ => true
  | _ => false

/-- The Python type name `type(v).__name__` of an embedded value. -/
def pyTypeName : Value → String
  | .null => "NoneType"
  | .bool _ => "bool"
  | .int _ => "int"
  | .str _ => "str"
  | .list _ => "list"
  | .dict _ => "dict"
  | .enumValue _ => "EnumValue"

/-- The exceptions raised by the translated module, tagged with the Python
exception class they correspond to and the message / key they carry. -/
inductive Err where
  | typeError (msg : String) : Err
  | valueError (msg : String) : Err
  | keyError (key : String) : Err
  | attributeError (msg : String) : Err
deriving DecidableEq

/-- The Python exception class name of an embedded error: the "kind" a caller
can catch on. -/
def Err.kind : Err → String
  | .typeError _ => "TypeError"
  | .valueError _ => "ValueError"
  | .keyError _ => "KeyError"
  | .attributeError _ => "AttributeError"

/-- The Python exception class name of the error of a failed computation, or
`none` when it succeeded. -/
def errKindOf {α : Type} : Except Err α → Option String
  | .error e => some e.kind
  | .ok _ => none

mutual

/-- Python `repr(v)` for embedded values, as interpolated into the module's
f-string error messages (string escaping inside literals is not modelled). -/
def pyRepr : Value → String
  | .null => "None"
  | .bool b => if b then "True" else "False"
  | .int i => toString i
  | .str s => "'" ++ s ++ "'"
  | .enumValue s => "EnumValue('" ++ s ++ "')"
  | .list l => "[" ++ pyReprList l ++ "]"
  | .dict d => "\x7b" ++ pyReprPairs d ++ "\x7d"

/-- Comma-separated `repr`s of the elements of a Python list. -/
def pyReprList : List Value → String
  | [] => ""
  | [x] => pyRepr x
  | x :: y :: rest => pyRepr x ++ ", " ++ pyReprList (y :: rest)

/-- Comma-separated `'key': repr(value)` renderings of a Python dict body. -/
def pyReprPairs : List (String × Value) → String
  | [] => ""
  | [(k, v)] => "'" ++ k ++ "': " ++ pyRepr v
  | (k, v) :: p :: rest => "'" ++ k ++ "': " ++ pyRepr v ++ ", " ++ pyReprPairs (p :: rest)

end

/-- Python `str(v)`: the identity on strings, `repr` on the containers that
appear in this module's messages. -/
def pyStr : Value → String
  | .str s => s
  | v => pyRepr v

/-- Python `len(v)` (TypeError on unsized values). -/
def pyLen : Value → Except Err Nat
  | .list l => .ok l.length
  | .dict d => .ok d.length
  | .str s => .ok s.length
  | v => .error (.typeError ("object of type '" ++ pyTypeName v ++ "' has no len()"))

/-- Python `v[0]` with an integer index: first element of a list, a KeyError
on a (string-keyed) dict, a TypeError on unsubscriptable values. -/
def pyGetItemInt : Value → Except Err Value
  | .list [] => .error (.valueError "list index out of range")
  | .list (x :: _) => .ok x
  | .dict _ => .error (.keyError "0")
  | .str s => .ok (.str (s.take 1))
  | v => .error (.typeError ("'" ++ pyTypeName v ++ "' object is not subscriptable"))

/-- Python `v[key]` with a string key. -/
def pyGetItemStr : Value → String → Except Err Value
  | .dict d, key =>
    match dlookup d key with
    | some v => .ok v
    | none => .error (.keyError key)
  | v, _ => .error (.typeError ("'" ++ pyTypeName v ++ "' object is not subscriptable"))

/-- Message of the TypeError raised by `from_flow_id` for a non-string id
(Python renders `type(flow_id)!r` as `<class 'name'>`). -/
def flowIdTypeMsg (v : Value) : String :=
  "Unexpected type <class '" ++ pyTypeName v ++ "'> for `flow_id`, expected 'str'."

/-- Message of the ValueError raised by `query_for_flows` for a non-dict
jsonb variable value. -/
def varTypeMsg (key : String) (val : Value) : String :=
  "Passed variable '" ++ key ++ "' is of type " ++ pyTypeName val ++
  ", expected 'dict'. Other types are not supported."

/-- Message of the ValueError raised by `query_for_flows` when the response
carries no flow data field. -/
def badResultMsg (whereC result : Value) : String :=
  "Received bad result while querying for flows where " ++ pyStr whereC ++ ": " ++ pyStr result

/-- Message of the ValueError raised by `query_for_flows` on an empty result
list when empty results are not tolerated. -/
def noResultsMsg (whereC : Value) : String :=
  "No results found while querying for flows where " ++ pyRepr whereC

/-- Message of the ValueError raised by `query_for_flow` when more than one
flow matches: it reports the result count and the filter used. -/
def multipleFlowsMsg (n : Nat) (whereC flows : Value) : String :=
  "Found multiple (" ++ toString n ++ ") flows while querying for flows where " ++
  pyStr whereC ++ ": " ++ pyStr flows

/-- Message of the ValueError raised by `from_flow_name`'s own multiple-match
branch: it reports the filter used but no count. -/
def multiMatchMsg (whereC : Value) : String :=
  "Found multiple flows matching " ++ pyStr whereC ++
  ". Provide a `project_name` as well or toggle `last_updated` to use the flow that was most recently updated"

/-- The fixed selection set of per-record fields `query_for_flows` requests.
The Python source writes the nested singleton set as a set literal; it is
modelled as a one-element list. -/
def flowFieldsSel : Value :=
  .dict [("id", .bool true), ("settings", .bool true), ("run_config", .bool true),
         ("serialized_flow", .bool true), ("name", .bool true), ("archived", .bool true),
         ("project", .list [.str "name"]), ("core_version", .bool true), ("storage", .bool true)]

/-- Modelled from the spec: the backend query description produced by the
query builder — `with_args` and the GraphQL rendering live outside the
translated module, so the request is kept structural: the query header with
its out-of-band variable declarations, the selection arguments (`where` and
optional `order_by`), the requested fields, and the variable assignment sent
alongside the query. -/
structure GqlQuery where
  header : String
  args : PyDict
  fields : Value
  queryVars : PyDict

/-- The transport collaborator (`prefect.Client().graphql`): maps a request
to a raw response value or fails; external to the translated module. -/
abbrev Client := GqlQuery → Except Err Value

/-- Modelled from the spec: the computation-graph object (`prefect.Flow`) is
external to the translated module; only its serialized form — a mapping of
string to value — is consumed here. -/
structure Flow where
  serialized : PyDict

/-- Python `flow.serialize()`: the flow's serialized mapping. -/
def Flow.serialize (f : Flow) : Value := .dict f.serialized

/-- Modelled from the spec: the typed storage descriptor produced by the
storage schema's polymorphic deserialization, consumed opaquely here. -/
structure Storage where
  raw : Value

/-- Modelled from the spec: `FlowSchema().load`, the graph object model's own
deserialization contract — a fallible external function. -/
abbrev FlowLoader := Value → Except Err Flow

/-- Modelled from the spec: `StorageSchema().load`, the storage schema's
discriminator-dispatched deserialization — a fallible external function. -/
abbrev StorageLoader := Value → Except Err Storage

/-- The immutable `FlowView` facade, mirroring the fields the Python
constructor stores. -/
structure FlowView where
  flow_id : Value
  flow : Flow
  settings : Value
  run_config : Value
  serialized_flow : Value
  archived : Value
  project_name : Value
  core_version : Value
  storage : Storage
  name : Value

/-- The `query_args` dict of `query_for_flows`: the `where` clause plus the
`order_by` clause when one was supplied. -/
def queryArgsOf (whereC : Value) (order_by : Option Value) : PyDict :=
  match order_by with
  | none => [("where", whereC)]
  | some ob => [("where", whereC), ("order_by", ob)]

/-- The `variable_declarations` string of `query_for_flows`: empty without
variables, otherwise each key declared with the `jsonb` GraphQL type. -/
def varDeclsOf (vars : PyDict) : String :=
  if vars.isEmpty then ""
  else "(" ++ String.intercalate ", " (vars.map (fun kv => "$" ++ kv.1 ++ ": jsonb")) ++ ")"

/-- The GraphQL request `query_for_flows` issues once validation has passed. -/
def builtQuery (whereC : Value) (order_by : Option Value) (vars : PyDict) : GqlQuery :=
  ⟨"query" ++ varDeclsOf vars, queryArgsOf whereC order_by, flowFieldsSel, vars⟩

/-- The extraction `result.get("data", ...).get("flow", None)` performed on
the transport response: `none` when the flow field is absent or null, an
AttributeError when a `.get` receiver is not a dict. -/
def getFlows : Value → Except Err (Option Value)
  | .dict kvs =>
    match (dlookup kvs "data").getD (.dict []) with
    | .dict ds =>
      match dlookup ds "flow" with
      | none => .ok none
      | some .null => .ok none
      | some v => .ok (some v)
    | v => .error (.attributeError ("'" ++ pyTypeName v ++ "' object has no attribute 'get'"))
  | v => .error (.attributeError ("'" ++ pyTypeName v ++ "' object has no attribute 'get'"))

/-- Translation of `FlowView.query_for_flows`.  Alongside the result it
returns the list of requests issued to the transport, so that the absence of
a transport call is expressible. -/
def query_for_flows (client : Client) (whereC : Value) (order_by : Option Value)
    (error_on_empty : Bool) (jsonb_variables : Option PyDict) :
    Except Err Value × List GqlQuery :=
  let vars : PyDict := jsonb_variables.getD []
  match vars.find? (fun kv => !kv.2.isDict) with
  | some kv => (.error (.valueError (varTypeMsg kv.1 kv.2)), [])
  | none =>
    let q : GqlQuery := builtQuery whereC order_by vars
    match client q with
    | .error e => (.error e, [q])
    | .ok result =>
      match getFlows result with
      | .error e => (.error e, [q])
      | .ok none => (.error (.valueError (badResultMsg whereC result)), [q])
      | .ok (some flows) =>
        if pyTruthy flows then (.ok flows, [q])
        else if error_on_empty then (.error (.valueError (noResultsMsg whereC)), [q])
        else (.ok (.list []), [q])

/-- Translation of `FlowView.query_for_flow`: query, raise on more than one
match, return the empty dict on no match, else the first element. -/
def query_for_flow (client : Client) (whereC : Value) (order_by : Option Value)
    (jsonb_variables : Option PyDict) : Except Err Value × List GqlQuery :=
  match query_for_flows client whereC order_by true jsonb_variables with
  | (.error e, tr) => (.error e, tr)
  | (.ok flows, tr) =>
    match pyLen flows with
    | .error e => (.error e, tr)
    | .ok n =>
      if 1 < n then (.error (.valueError (multipleFlowsMsg n whereC flows)), tr)
      else if !pyTruthy flows then (.ok (.dict []), tr)
      else
        match pyGetItemInt flows with
        | .error e => (.error e, tr)
        | .ok flow => (.ok flow, tr)

/-- The remaining keyword parameters the `FlowView` constructor accepts when
called as `cls(flow_id=..., project_name=..., flow=..., storage=..., **flow_data)`. -/
def ctorKwargNames : List String :=
  ["settings", "run_config", "serialized_flow", "archived", "core_version", "name"]

/-- Whether `**flow_data` binds exactly the remaining constructor
parameters: every required keyword present and no unexpected keyword. -/
def kwargsOk (d : PyDict) : Bool :=
  ctorKwargNames.all (fun k => (dlookup d k).isSome) &&
  d.all (fun kv => ctorKwargNames.contains kv.1)

/-- The dict case of `from_flow_data`: the sequential pops, lookups and
loads performed on the record, threading the mutated dict state. -/
def from_flow_data_dict (loadFlow : FlowLoader) (loadStorage : StorageLoader) (d0 : PyDict) :
    Except Err FlowView × Value :=
  match dpop d0 "id" with
    | none => (.error (.keyError "id"), .dict d0)
    | some (idv, d1) =>
      match dpop d1 "project" with
      | none => (.error (.keyError "project"), .dict d1)
      | some (projv, d2) =>
        match pyGetItemStr projv "name" with
        | .error e => (.error e, .dict d2)
        | .ok pname =>
          match dlookup d2 "serialized_flow" with
          | none => (.error (.keyError "serialized_flow"), .dict d2)
          | some sfv =>
            match loadFlow sfv with
            | .error e => (.error e, .dict d2)
            | .ok gf =>
              match dpop d2 "storage" with
              | none => (.error (.keyError "storage"), .dict d2)
              | some (stv, d3) =>
                match loadStorage stv with
                | .error e => (.error e, .dict d3)
                | .ok st =>
                  if kwargsOk d3 then
                    (.ok ⟨idv, gf, (dlookup d3 "settings").getD .null,
                          (dlookup d3 "run_config").getD .null,
                          (dlookup d3 "serialized_flow").getD .null,
                          (dlookup d3 "archived").getD .null,
                          pname, (dlookup d3 "core_version").getD .null, st,
                          (dlookup d3 "name").getD .null⟩, .dict d3)
                  else
                    (.error (.typeError "unexpected or missing keyword arguments for FlowView()"),
                     .dict d3)

/-- Translation of `FlowView.from_flow_data`.  The input dict is mutated by
the three `pop` calls, so the final state of the argument is returned
alongside the result. -/
def from_flow_data (loadFlow : FlowLoader) (loadStorage : StorageLoader) (v : Value) :
    Except Err FlowView × Value :=
  match v with
  | .dict d0 => from_flow_data_dict loadFlow loadStorage d0
  | v0 => (.error (.attributeError ("'" ++ pyTypeName v0 ++ "' object has no attribute 'pop'")), v0)

/-- The `where` clause built by `from_flow_id`. -/
def idWhere (flow_id : Value) : Value := .dict [("id", .dict [("_eq", flow_id)])]

/-- Translation of `FlowView.from_flow_id`: reject non-string ids, then
resolve through `query_for_flow` and `from_flow_data`. -/
def from_flow_id (client : Client) (loadFlow : FlowLoader) (loadStorage : StorageLoader)
    (flow_id : Value) : Except Err FlowView × List GqlQuery :=
  if flow_id.isStr then
    match query_for_flow client (idWhere flow_id) none none with
    | (.error e, tr) => (.error e, tr)
    | (.ok fd, tr) => ((from_flow_data loadFlow loadStorage fd).1, tr)
  else (.error (.typeError (flowIdTypeMsg flow_id)), [])

/-- The `where` clause built by `from_flow_obj`: the serialized flow is
referenced through the GraphQL variable `$serialized_flow`, and the
`archived equals false` conjunct is appended unless archived results are
allowed. -/
def objWhere (allow_archived : Bool) : Value :=
  .dict ([("serialized_flow", .dict [("_eq", .enumValue "$serialized_flow")])] ++
    (if allow_archived then [] else [("archived", .dict [("_eq", .bool false)])]))

/-- Translation of `FlowView.from_flow_obj`: structural-match lookup; the
serialized flow travels as the jsonb variable `serialized_flow`. -/
def from_flow_obj (client : Client) (loadFlow : FlowLoader) (loadStorage : StorageLoader)
    (flow : Flow) (allow_archived : Bool) : Except Err FlowView × List GqlQuery :=
  match query_for_flow client (objWhere allow_archived) none
      (some [("serialized_flow", flow.serialize)]) with
  | (.error e, tr) => (.error e, tr)
  | (.ok fd, tr) => ((from_flow_data loadFlow loadStorage fd).1, tr)

/-- Python's `project_name != ""` test (true only on the empty string). -/
def isEmptyStr : Value → Bool
  | .str s => s == ""
  | _ => false

/-- The `where` clause built by `from_flow_name`: name plus unarchived, with
a project sub-predicate when a project name (or the explicit null marker)
was supplied. -/
def nameWhere (flow_name project_name : Value) : Value :=
  .dict ([("name", .dict [("_eq", flow_name)]), ("archived", .dict [("_eq", .bool false)])] ++
    (if isEmptyStr project_name then []
     else [("project", .dict [("name",
       if pyTruthy project_name then Value.dict [("_eq", project_name)]
       else Value.dict [("_is_null", .bool true)])])]))

/-- The `order_by` clause of `from_flow_name`: most recently updated first. -/
def orderByUpdatedAt : Value := .dict [("updated_at", .enumValue "desc")]

/-- Translation of `FlowView.from_flow_name`: note that the source routes
the lookup through `query_for_flow`, which returns a single dict, before
applying `len(flows) > 1` and `flows[0]` to that dict. -/
def from_flow_name (client : Client) (loadFlow : FlowLoader) (loadStorage : StorageLoader)
    (flow_name project_name : Value) (last_updated : Bool) :
    Except Err FlowView × List GqlQuery :=
  match query_for_flow client (nameWhere flow_name project_name) (some orderByUpdatedAt) none with
  | (.error e, tr) => (.error e, tr)
  | (.ok flows, tr) =>
    match pyLen flows with
    | .error e => (.error e, tr)
    | .ok n =>
      if 1 < n && !last_updated then
        (.error (.valueError (multiMatchMsg (nameWhere flow_name project_name))), tr)
      else
        match pyGetItemInt flows with
        | .error e => (.error e, tr)
        | .ok flow => ((from_flow_data loadFlow loadStorage flow).1, tr)

/-- A backend flow record of the shape `query_for_flows` requests: the nine
selected fields in selection order, with the given field values. -/
def mkRecord (idv sv rv sfv nv av pv cv stv : Value) : Value :=
  .dict [("id", idv), ("settings", sv), ("run_config", rv), ("serialized_flow", sfv),
         ("name", nv), ("archived", av), ("project", .dict [("name", pv)]),
         ("core_version", cv), ("storage", stv)]

/-- A well-formed transport response carrying the given list of flow records
under `data.flow`. -/
def mkFlowsResult (flows : List Value) : Value :=
  .dict [("data", .dict [("flow", .list flows)])]

/-- A concrete serialized flow, used as fixture data. -/
def sfW : Value := .dict [("tasks", .list [])]

/-- A concrete raw storage record, used as fixture data. -/
def stW : Value := .dict [("type", .str "Local")]

/-- A concrete backend record with id `"abc"`. -/
def recW : Value :=
  mkRecord (.str "abc") (.dict []) (.dict [("labels", .list [])]) sfW (.str "myflow")
    (.bool false) (.str "proj") (.str "0.15.0") stW

/-- A second concrete backend record with id `"def"`. -/
def recW2 : Value :=
  mkRecord (.str "def") (.dict []) (.dict []) sfW (.str "myflow") (.bool false)
    (.str "proj") (.str "0.15.0") stW

/-- A concrete graph loader that always succeeds. -/
def lfW : FlowLoader := fun v => .ok ⟨[("loaded", v)]⟩

/-- A concrete storage loader that always succeeds. -/
def lsW : StorageLoader := fun v => .ok ⟨v⟩

/-- A transport stub returning exactly one matching record. -/
def clientOneW : Client := fun _ => .ok (mkFlowsResult [recW])

/-- A transport stub returning two matching records. -/
def clientTwoW : Client := fun _ => .ok (mkFlowsResult [recW, recW2])

/-- A transport stub returning zero matching records. -/
def clientEmptyW : Client := fun _ => .ok (mkFlowsResult [])

/-- A transport stub whose response lacks the `flow` field under `data`. -/
def clientBadW : Client := fun _ => .ok (.dict [("data", .dict [("tenant", .list [])])])

/-- A concrete storage loader that always fails, to exercise calls that fail
after the three pops have executed. -/
def lsFailW : StorageLoader := fun _ => .error (.valueError "storage schema failure")

/-- The field list of a concrete backend record, used as a witness input. -/
def recFieldsW : PyDict :=
  [("id", .str "abc"), ("settings", .dict []), ("run_config", .dict [("labels", .list [])]),
   ("serialized_flow", sfW), ("name", .str "myflow"), ("archived", .bool false),
   ("project", .dict [("name", .str "proj")]), ("core_version", .str "0.15.0"),
   ("storage", stW)]

/-! Helper lemmas about the dict operations. -/

theorem dlookup_eq_none_of_not_mem {d : PyDict} {key : String}
    (h : ¬ key ∈ d.map Prod.fst) : dlookup d key = none := by
  induction d with
  | nil => rfl
  | cons kv rest ih =>
    obtain ⟨k, v⟩ := kv
    simp only [List.map_cons, List.mem_cons, not_or] at h
    have hk : (k == key) = false := by
      simp only [beq_eq_false_iff_ne]
      exact fun he => h.1 he.symm
    simp only [dlookup, hk, Bool.false_eq_true, if_false]
    exact ih h.2

theorem dpop_sublist {d : PyDict} {key : String} {v : Value} {d' : PyDict}
    (h : dpop d key = some (v, d')) : d'.Sublist d := by
  induction d generalizing d' with
  | nil => simp [dpop] at h
  | cons kv rest ih =>
    obtain ⟨k, v0⟩ := kv
    simp only [dpop] at h
    by_cases hk : (k == key) = true
    · rw [if_pos hk] at h
      simp only [Option.some.injEq, Prod.mk.injEq] at h
      obtain ⟨-, rfl⟩ := h
      exact List.sublist_cons_self _ _
    · rw [if_neg hk] at h
      cases h2 : dpop rest key with
      | none => rw [h2] at h; simp at h
      | some p =>
        obtain ⟨v2, rest2⟩ := p
        rw [h2] at h
        simp only [Option.some.injEq, Prod.mk.injEq] at h
        obtain ⟨rfl, rfl⟩ := h
        exact List.Sublist.cons₂ _ (ih h2)

theorem nodup_keys_dpop {d d' : PyDict} {key : String} {v : Value}
    (hnd : (d.map Prod.fst).Nodup) (h : dpop d key = some (v, d')) :
    (d'.map Prod.fst).Nodup :=
  hnd.sublist ((dpop_sublist h).map Prod.fst)

theorem dlookup_dpop_self {d d' : PyDict} {key : String} {v : Value}
    (hnd : (d.map Prod.fst).Nodup) (h : dpop d key = some (v, d')) :
    dlookup d' key = none := by
  induction d generalizing d' with
  | nil => simp [dpop] at h
  | cons kv rest ih =>
    obtain ⟨k, v0⟩ := kv
    simp only [List.map_cons, List.nodup_cons] at hnd
    simp only [dpop] at h
    by_cases hk : (k == key) = true
    · rw [if_pos hk] at h
      simp only [Option.some.injEq, Prod.mk.injEq] at h
      obtain ⟨-, rfl⟩ := h
      exact dlookup_eq_none_of_not_mem (by rw [← eq_of_beq hk]; exact hnd.1)
    · rw [if_neg hk] at h
      cases h2 : dpop rest key with
      | none => rw [h2] at h; simp at h
      | some p =>
        obtain ⟨v2, rest2⟩ := p
        rw [h2] at h
        simp only [Option.some.injEq, Prod.mk.injEq] at h
        obtain ⟨rfl, rfl⟩ := h
        simp only [dlookup, hk, Bool.false_eq_true, if_false]
        exact ih hnd.2 h2

theorem dlookup_eq_none_of_dpop_none {d : PyDict} {key : String}
    (h : dpop d key = none) : dlookup d key = none := by
  induction d with
  | nil => rfl
  | cons kv rest ih =>
    obtain ⟨k, v⟩ := kv
    simp only [dpop] at h
    by_cases hk : (k == key) = true
    · rw [if_pos hk] at h
      simp at h
    · rw [if_neg hk] at h
      simp only [dlookup, hk, Bool.false_eq_true, if_false]
      cases h2 : dpop rest key with
      | none => exact ih h2
      | some p =>
        obtain ⟨a, b⟩ := p
        rw [h2] at h
        simp at h

theorem dlookup_of_dpop {d : PyDict} {key : String} {v : Value} {d' : PyDict}
    (h : dpop d key = some (v, d')) : dlookup d key = some v := by
  induction d generalizing d' with
  | nil => simp [dpop] at h
  | cons kv rest ih =>
    obtain ⟨k, v0⟩ := kv
    simp only [dpop] at h
    by_cases hk : (k == key) = true
    · rw [if_pos hk] at h
      simp only [Option.some.injEq, Prod.mk.injEq] at h
      obtain ⟨rfl, -⟩ := h
      simp [dlookup, hk]
    · rw [if_neg hk] at h
      cases h2 : dpop rest key with
      | none => rw [h2] at h; simp at h
      | some p =>
        obtain ⟨v2, rest2⟩ := p
        rw [h2] at h
        simp only [Option.some.injEq, Prod.mk.injEq] at h
        obtain ⟨rfl, -⟩ := h
        simp only [dlookup, hk, Bool.false_eq_true, if_false]
        exact ih h2

theorem dlookup_dpop_ne {d d' : PyDict} {key k : String} {v : Value}
    (h : dpop d key = some (v, d')) (hne : k ≠ key) :
    dlookup d' k = dlookup d k := by
  induction d generalizing d' with
  | nil => simp [dpop] at h
  | cons kv rest ih =>
    obtain ⟨k0, v0⟩ := kv
    simp only [dpop] at h
    by_cases hk : (k0 == key) = true
    · rw [if_pos hk] at h
      simp only [Option.some.injEq, Prod.mk.injEq] at h
      obtain ⟨-, rfl⟩ := h
      have hk0 : (k0 == k) = false := by
        simp only [beq_eq_false_iff_ne, eq_of_beq hk]
        exact fun he => hne he.symm
      simp only [dlookup, hk0, Bool.false_eq_true, if_false]
    · rw [if_neg hk] at h
      cases h2 : dpop rest key with
      | none => rw [h2] at h; simp at h
      | some p =>
        obtain ⟨v2, rest2⟩ := p
        rw [h2] at h
        simp only [Option.some.injEq, Prod.mk.injEq] at h
        obtain ⟨rfl, rfl⟩ := h
        by_cases hk0 : (k0 == k) = true
        · simp only [dlookup, hk0, if_true]
        · simp only [dlookup, Bool.not_eq_true] at hk0 ⊢
          simp only [hk0, Bool.false_eq_true, if_false]
          exact ih h2


/-! Helper lemmas about the query pipeline. -/

theorem query_for_flows_ok_nonempty (client : Client) (w : Value) (ob : Option Value)
    (eoe : Bool) (flows : List Value)
    (hc : client (builtQuery w ob []) = .ok (mkFlowsResult flows))
    (hne : flows.isEmpty = false) :
    query_for_flows client w ob eoe none =
      (.ok (.list flows), [builtQuery w ob []]) := by
  unfold query_for_flows
  simp only [Option.getD_none, List.find?_nil, hc, getFlows, mkFlowsResult, dlookup,
    beq_self_eq_true, if_true, Option.getD_some, pyTruthy, hne, Bool.not_false]

theorem query_for_flows_empty_aux (client : Client) (w : Value) (ob : Option Value)
    (hc : client (builtQuery w ob []) = .ok (mkFlowsResult [])) :
    query_for_flows client w ob true none =
      (.error (.valueError (noResultsMsg w)), [builtQuery w ob []]) ∧
    query_for_flows client w ob false none =
      (.ok (.list []), [builtQuery w ob []]) := by
  constructor <;>
    simp only [query_for_flows, Option.getD_none, List.find?_nil, hc, getFlows, mkFlowsResult,
      dlookup, beq_self_eq_true, if_true, Option.getD_some, pyTruthy, List.isEmpty_nil,
      Bool.not_true, Bool.false_eq_true, if_false]

theorem query_for_flow_single (client : Client) (w : Value) (ob : Option Value) (r : Value)
    (hc : client (builtQuery w ob []) = .ok (mkFlowsResult [r])) :
    query_for_flow client w ob none = (.ok r, [builtQuery w ob []]) := by
  unfold query_for_flow
  rw [query_for_flows_ok_nonempty client w ob true [r] hc rfl]
  simp [pyLen, pyTruthy, pyGetItemInt]

theorem query_for_flow_multi (client : Client) (w : Value) (ob : Option Value)
    (flows : List Value)
    (hc : client (builtQuery w ob []) = .ok (mkFlowsResult flows))
    (h2 : 1 < flows.length) :
    query_for_flow client w ob none =
      (.error (.valueError (multipleFlowsMsg flows.length w (.list flows))),
       [builtQuery w ob []]) := by
  have hne : flows.isEmpty = false := by
    cases flows with
    | nil => simp at h2
    | cons a t => rfl
  unfold query_for_flow
  rw [query_for_flows_ok_nonempty client w ob true flows hc hne]
  simp only [pyLen, if_pos h2]

theorem query_for_flows_trace (client : Client) (w : Value) (ob : Option Value)
    (eoe : Bool) (vars : PyDict)
    (hval : vars.find? (fun kv => !kv.2.isDict) = none) :
    (query_for_flows client w ob eoe (some vars)).2 = [builtQuery w ob vars] := by
  unfold query_for_flows
  simp only [Option.getD_some, hval]
  cases hc : client (builtQuery w ob vars) with
  | error e => rfl
  | ok result =>
    cases hg : getFlows result with
    | error e => simp only [hg]
    | ok o =>
      cases o with
      | none => simp only [hg]
      | some flows =>
        simp only [hg]
        by_cases ht : pyTruthy flows = true
        · simp only [ht, if_true]
        · simp only [Bool.not_eq_true] at ht
          simp only [ht, Bool.false_eq_true, if_false]
          by_cases he : eoe = true
          · simp only [he, if_true]
          · simp only [Bool.not_eq_true] at he
            simp only [he, Bool.false_eq_true, if_false]

theorem query_for_flow_trace (client : Client) (w : Value) (ob : Option Value)
    (vars : PyDict)
    (hval : vars.find? (fun kv => !kv.2.isDict) = none) :
    (query_for_flow client w ob (some vars)).2 = [builtQuery w ob vars] := by
  have h := query_for_flows_trace client w ob true vars hval
  unfold query_for_flow
  rcases hq : query_for_flows client w ob true (some vars) with ⟨res, tr⟩
  rw [hq] at h
  subst h
  repeat' split
  all_goals simp_all

theorem from_flow_data_mkRecord (lf : FlowLoader) (ls : StorageLoader)
    (idv sv rv sfv nv av pv cv stv : Value) (gf : Flow) (st : Storage)
    (hf : lf sfv = .ok gf) (hs : ls stv = .ok st) :
    from_flow_data lf ls (mkRecord idv sv rv sfv nv av pv cv stv) =
      (.ok ⟨idv, gf, sv, rv, sfv, av, pv, cv, st, nv⟩,
       .dict [("settings", sv), ("run_config", rv), ("serialized_flow", sfv),
              ("name", nv), ("archived", av), ("core_version", cv)]) := by
  simp [from_flow_data, from_flow_data_dict, mkRecord, dpop, dlookup, pyGetItemStr,
    kwargsOk, ctorKwargNames, hf, hs]

/-- The two fixed message prefixes of the bad-result and no-results errors
make the two messages provably distinct, whatever the filter and response. -/
theorem badResultMsg_ne_noResultsMsg (w r : Value) : badResultMsg w r ≠ noResultsMsg w := by
  intro h
  have h2 := congrArg (fun s => s.data.head?) h
  simp only [badResultMsg, noResultsMsg, String.data_append, List.head?_append,
    List.append_assoc] at h2
  have hR : ("Received bad result while querying for flows where ").data.head? = some 'R' := rfl
  have hN : ("No results found while querying for flows where ").data.head? = some 'N' := rfl
  rw [hR, hN] at h2
  simp at h2

/-! Claim theorems. -/

/-- Claim C1: for every backend result containing exactly one record for the
id query, `from_flow_id` returns a `FlowView` whose `flow_id` field equals
the `id` field of that record (`idv`), after exactly one transport call. -/
theorem from_flow_id_returns_record_id (client : Client) (lf : FlowLoader) (ls : StorageLoader)
    (fid : String) (idv sv rv sfv nv av pv cv stv : Value) (gf : Flow) (st : Storage)
    (hc : client (builtQuery (idWhere (.str fid)) none []) =
      .ok (mkFlowsResult [mkRecord idv sv rv sfv nv av pv cv stv]))
    (hf : lf sfv = .ok gf) (hs : ls stv = .ok st) :
    from_flow_id client lf ls (.str fid) =
      (.ok ⟨idv, gf, sv, rv, sfv, av, pv, cv, st, nv⟩,
       [builtQuery (idWhere (.str fid)) none []]) := by
  unfold from_flow_id
  rw [query_for_flow_single client (idWhere (.str fid)) none _ hc]
  simp [Value.isStr, from_flow_data_mkRecord lf ls idv sv rv sfv nv av pv cv stv gf st hf hs]

/-- Claim C1 witness: a concrete one-record backend resolved by id. -/
theorem from_flow_id_returns_record_id_witness :
    from_flow_id clientOneW lfW lsW (.str "abc") =
      (.ok ⟨.str "abc", ⟨[("loaded", sfW)]⟩, .dict [], .dict [("labels", .list [])], sfW,
            .bool false, .str "proj", .str "0.15.0", ⟨stW⟩, .str "myflow"⟩,
       [builtQuery (idWhere (.str "abc")) none []]) :=
  from_flow_id_returns_record_id clientOneW lfW lsW "abc" (.str "abc") (.dict [])
    (.dict [("labels", .list [])]) sfW (.str "myflow") (.bool false) (.str "proj")
    (.str "0.15.0") stW ⟨[("loaded", sfW)]⟩ ⟨stW⟩ rfl rfl rfl

/-- Claim C2 (code bug witness): with a backend returning exactly one record
for the name query, `from_flow_name` does not return that record as a
`FlowView`: with `last_updated = false` it raises the multiple-match
ValueError (because `query_for_flow` hands it a single nine-key dict whose
`len` exceeds one), and with `last_updated = true` it raises `KeyError: 0`
(indexing that dict with the integer zero). -/
theorem from_flow_name_single_record_still_fails :
    from_flow_name clientOneW lfW lsW (.str "myflow") (.str "") false =
      (.error (.valueError (multiMatchMsg (nameWhere (.str "myflow") (.str "")))),
       [builtQuery (nameWhere (.str "myflow") (.str "")) (some orderByUpdatedAt) []]) ∧
    (from_flow_name clientOneW lfW lsW (.str "myflow") (.str "") true).1 =
      .error (.keyError "0") :=
  ⟨rfl, rfl⟩

/-- Claim C3 (code bug witness): with a backend returning two records for the
name query and `last_updated = true`, `from_flow_name` raises: the inner
`query_for_flow` raises its multiple-flows ValueError before the
`last_updated` flag is ever consulted, so no most-recent record is returned. -/
theorem from_flow_name_two_records_latest_still_fails :
    from_flow_name clientTwoW lfW lsW (.str "myflow") (.str "") true =
      (.error (.valueError (multipleFlowsMsg 2 (nameWhere (.str "myflow") (.str ""))
        (.list [recW, recW2]))),
       [builtQuery (nameWhere (.str "myflow") (.str "")) (some orderByUpdatedAt) []]) :=
  rfl

/-- Claim C4: for every backend result with more than one record for the name
query and `last_updated = false`, `from_flow_name` fails with a ValueError
whose message reports the filter used and the result count, and no
`FlowView` is returned. -/
theorem from_flow_name_multiple_fails_with_count (client : Client) (lf : FlowLoader)
    (ls : StorageLoader) (fname pname : Value) (flows : List Value)
    (hc : client (builtQuery (nameWhere fname pname) (some orderByUpdatedAt) []) =
      .ok (mkFlowsResult flows))
    (h2 : 1 < flows.length) :
    from_flow_name client lf ls fname pname false =
      (.error (.valueError (multipleFlowsMsg flows.length (nameWhere fname pname)
        (.list flows))),
       [builtQuery (nameWhere fname pname) (some orderByUpdatedAt) []]) := by
  unfold from_flow_name
  rw [query_for_flow_multi client (nameWhere fname pname) (some orderByUpdatedAt) flows hc h2]

/-- Claim C4 witness: a concrete two-record backend under the name query. -/
theorem from_flow_name_multiple_fails_with_count_witness :
    from_flow_name clientTwoW lfW lsW (.str "myflow") (.str "") false =
      (.error (.valueError (multipleFlowsMsg 2 (nameWhere (.str "myflow") (.str ""))
        (.list [recW, recW2]))),
       [builtQuery (nameWhere (.str "myflow") (.str "")) (some orderByUpdatedAt) []]) :=
  from_flow_name_multiple_fails_with_count clientTwoW lfW lsW (.str "myflow") (.str "")
    [recW, recW2] rfl (by decide)

/-- Claim C5: for every backend returning zero records for the id query,
`from_flow_id` fails with the no-results ValueError; no `FlowView` and no
sentinel value is returned. -/
theorem from_flow_id_zero_records_not_found (client : Client) (lf : FlowLoader)
    (ls : StorageLoader) (fid : String)
    (hc : client (builtQuery (idWhere (.str fid)) none []) = .ok (mkFlowsResult [])) :
    from_flow_id client lf ls (.str fid) =
      (.error (.valueError (noResultsMsg (idWhere (.str fid)))),
       [builtQuery (idWhere (.str fid)) none []]) := by
  have h := (query_for_flows_empty_aux client (idWhere (.str fid)) none hc).1
  unfold from_flow_id query_for_flow
  rw [h]
  rfl

/-- Claim C5 witness: a concrete empty backend under the id query. -/
theorem from_flow_id_zero_records_not_found_witness :
    from_flow_id clientEmptyW lfW lsW (.str "abc") =
      (.error (.valueError (noResultsMsg (idWhere (.str "abc")))),
       [builtQuery (idWhere (.str "abc")) none []]) :=
  from_flow_id_zero_records_not_found clientEmptyW lfW lsW "abc" rfl

/-- Claim C6: for every flow object and `allow_archived` flag, the single
query issued by `from_flow_obj` declares the out-of-band jsonb variable
`$serialized_flow` in its header, carries the serialized flow only in the
variable assignment, and uses a predicate that is the same fixed term for
every flow — referencing the variable, never inlining the serialized form —
with the `archived equals false` conjunct present exactly when
`allow_archived` is false. -/
theorem from_flow_obj_query_shape (client : Client) (lf : FlowLoader) (ls : StorageLoader)
    (f : Flow) (aa : Bool) :
    (from_flow_obj client lf ls f aa).2 =
      [⟨"query($serialized_flow: jsonb)", [("where", objWhere aa)], flowFieldsSel,
        [("serialized_flow", f.serialize)]⟩] ∧
    objWhere aa = .dict ([("serialized_flow", .dict [("_eq", .enumValue "$serialized_flow")])] ++
      (if aa then [] else [("archived", .dict [("_eq", .bool false)])])) := by
  constructor
  · have hval : ([("serialized_flow", f.serialize)] : PyDict).find?
        (fun kv => !kv.2.isDict) = none := by
      simp [Flow.serialize, Value.isDict]
    have h := query_for_flow_trace client (objWhere aa) none
      [("serialized_flow", f.serialize)] hval
    unfold from_flow_obj
    rcases hq : query_for_flow client (objWhere aa) none
      (some [("serialized_flow", f.serialize)]) with ⟨res, tr⟩
    rw [hq] at h
    cases res <;> exact h.trans rfl
  · rfl

/-- Claim C7: invalid input fails before any transport call.  A non-string
`flow_id` makes `from_flow_id` raise a TypeError with an empty transport
trace; a non-dict jsonb variable value makes `query_for_flows` raise a
ValueError with an empty transport trace. -/
theorem invalid_input_fails_before_transport :
    (∀ (client : Client) (lf : FlowLoader) (ls : StorageLoader) (v : Value),
        v.isStr = false →
        from_flow_id client lf ls v = (.error (.typeError (flowIdTypeMsg v)), [])) ∧
    (∀ (client : Client) (w : Value) (ob : Option Value) (eoe : Bool)
        (vars : PyDict) (kv : String × Value),
        vars.find? (fun p => !p.2.isDict) = some kv →
        query_for_flows client w ob eoe (some vars) =
          (.error (.valueError (varTypeMsg kv.1 kv.2)), [])) := by
  constructor
  · intro client lf ls v hv
    unfold from_flow_id
    simp [hv]
  · intro client w ob eoe vars kv hfind
    unfold query_for_flows
    simp only [Option.getD_some, hfind]

/-- Claim C7 witness: an integer `flow_id` and an integer jsonb variable are
both rejected with no transport call. -/
theorem invalid_input_fails_before_transport_witness :
    from_flow_id clientOneW lfW lsW (.int 5) =
      (.error (.typeError (flowIdTypeMsg (.int 5))), []) ∧
    query_for_flows clientOneW (idWhere (.str "abc")) none true (some [("x", .int 3)]) =
      (.error (.valueError (varTypeMsg "x" (.int 3))), []) :=
  ⟨invalid_input_fails_before_transport.1 clientOneW lfW lsW (.int 5) rfl,
   invalid_input_fails_before_transport.2 clientOneW (idWhere (.str "abc")) none true
     [("x", .int 3)] ("x", .int 3) rfl⟩

/-- Claim C8: for every backend returning zero records, `query_for_flows`
with `error_on_empty = false` returns the empty list without raising, and
with `error_on_empty = true` raises the no-results ValueError. -/
theorem query_for_flows_empty_result_policy (client : Client) (w : Value) (ob : Option Value)
    (hc : client (builtQuery w ob []) = .ok (mkFlowsResult [])) :
    query_for_flows client w ob false none = (.ok (.list []), [builtQuery w ob []]) ∧
    query_for_flows client w ob true none =
      (.error (.valueError (noResultsMsg w)), [builtQuery w ob []]) :=
  ⟨(query_for_flows_empty_aux client w ob hc).2, (query_for_flows_empty_aux client w ob hc).1⟩

/-- Claim C8 witness: a concrete empty backend under both settings. -/
theorem query_for_flows_empty_result_policy_witness :
    query_for_flows clientEmptyW (idWhere (.str "abc")) none false none =
      (.ok (.list []), [builtQuery (idWhere (.str "abc")) none []]) ∧
    query_for_flows clientEmptyW (idWhere (.str "abc")) none true none =
      (.error (.valueError (noResultsMsg (idWhere (.str "abc")))),
       [builtQuery (idWhere (.str "abc")) none []]) :=
  query_for_flows_empty_result_policy clientEmptyW (idWhere (.str "abc")) none rfl

/-- Claim C9 counterexample: at concrete inputs, the error raised for a
response with no flow data field and the error raised for an empty result
are the same Python exception kind (both ValueError), so the bad-response
failure is not a distinct kind from NotFound. -/
theorem bad_response_same_kind_as_not_found :
    errKindOf (query_for_flows clientBadW (idWhere (.str "abc")) none true none).1 =
      some "ValueError" ∧
    errKindOf (query_for_flows clientEmptyW (idWhere (.str "abc")) none true none).1 =
      some "ValueError" ∧
    errKindOf (query_for_flows clientBadW (idWhere (.str "abc")) none true none).1 =
      errKindOf (query_for_flows clientEmptyW (idWhere (.str "abc")) none true none).1 :=
  ⟨rfl, rfl, rfl⟩

/-- Claim C9 (amended): for every transport response whose flow data field is
absent, `query_for_flows` raises a ValueError carrying the bad-result
message, which differs from the no-results (NotFound) message — the two
failures are distinguishable by message, though not by exception class. -/
theorem bad_response_distinct_message (client : Client) (w : Value) (ob : Option Value)
    (eoe : Bool) (r : Value)
    (hc : client (builtQuery w ob []) = .ok r)
    (hmiss : getFlows r = .ok none) :
    query_for_flows client w ob eoe none =
      (.error (.valueError (badResultMsg w r)), [builtQuery w ob []]) ∧
    badResultMsg w r ≠ noResultsMsg w := by
  constructor
  · unfold query_for_flows
    simp only [Option.getD_none, List.find?_nil, hc, hmiss]
  · exact badResultMsg_ne_noResultsMsg w r

/-- Claim C9 (amended) witness: a concrete malformed response. -/
theorem bad_response_distinct_message_witness :
    query_for_flows clientBadW (idWhere (.str "abc")) none true none =
      (.error (.valueError (badResultMsg (idWhere (.str "abc"))
        (.dict [("data", .dict [("tenant", .list [])])]))),
       [builtQuery (idWhere (.str "abc")) none []]) ∧
    badResultMsg (idWhere (.str "abc")) (.dict [("data", .dict [("tenant", .list [])])]) ≠
      noResultsMsg (idWhere (.str "abc")) :=
  bad_response_distinct_message clientBadW (idWhere (.str "abc")) none true
    (.dict [("data", .dict [("tenant", .list [])])]) rfl rfl

/-- Claim C10: for every dict handed to `from_flow_data` (with the unique
keys a Python dict guarantees), whatever the outcome of the call — success or
a failure at any step — the final state of the argument is a dict in which
every key other than `id`, `project` and `storage` keeps its original
binding, `id` is unbound, `project` is unbound whenever execution got past
the `id` pop, and `storage` is unbound whenever execution got past the
`storage` pop (that is, whenever the `id` and `project` pops, the project
name lookup, the `serialized_flow` lookup and the graph load all succeeded —
in particular on success, on a storage-load failure and on a constructor
keyword failure). -/
theorem from_flow_data_removes_popped_keys (lf : FlowLoader) (ls : StorageLoader)
    (d : PyDict) (hnd : (d.map Prod.fst).Nodup) :
    ∃ d3 : PyDict,
      (from_flow_data lf ls (.dict d)).2 = .dict d3 ∧
      (∀ k, k ≠ "id" → k ≠ "project" → k ≠ "storage" → dlookup d3 k = dlookup d k) ∧
      dlookup d3 "id" = none ∧
      ((dlookup d "id").isSome = true → dlookup d3 "project" = none) ∧
      (∀ projv pname sfv gf,
        (dlookup d "id").isSome = true →
        dlookup d "project" = some projv →
        pyGetItemStr projv "name" = .ok pname →
        dlookup d "serialized_flow" = some sfv →
        lf sfv = .ok gf →
        dlookup d3 "storage" = none) := by
  have hdd : from_flow_data lf ls (.dict d) = from_flow_data_dict lf ls d := rfl
  rw [hdd]
  unfold from_flow_data_dict
  rcases h1 : dpop d "id" with _ | ⟨idv, d1⟩ <;> simp only [h1]
  · -- the id pop itself raises: the argument is left untouched
    have hid : dlookup d "id" = none := dlookup_eq_none_of_dpop_none h1
    refine ⟨d, rfl, fun k _ _ _ => rfl, hid, ?_, ?_⟩
    · intro hcontra
      rw [hid] at hcontra
      simp at hcontra
    · intro projv pname sfv gf hcontra _ _ _ _
      rw [hid] at hcontra
      simp at hcontra
  have hnd1 : (d1.map Prod.fst).Nodup := nodup_keys_dpop hnd h1
  have hid1 : dlookup d1 "id" = none := dlookup_dpop_self hnd h1
  rcases h2 : dpop d1 "project" with _ | ⟨projv, d2⟩ <;> simp only [h2]
  · -- the project pop raises: only the id binding has been removed
    refine ⟨d1, rfl, fun k hki _ _ => dlookup_dpop_ne h1 hki, hid1, ?_, ?_⟩
    · intro _
      exact dlookup_eq_none_of_dpop_none h2
    · intro projv pname sfv gf _ hproj _ _ _
      rw [← dlookup_dpop_ne h1 (by decide : ("project" : String) ≠ "id"),
        dlookup_eq_none_of_dpop_none h2] at hproj
      cases hproj
  have hnd2 : (d2.map Prod.fst).Nodup := nodup_keys_dpop hnd1 h2
  have hframe2 : ∀ k, k ≠ "id" → k ≠ "project" → dlookup d2 k = dlookup d k :=
    fun k hki hkp => (dlookup_dpop_ne h2 hkp).trans (dlookup_dpop_ne h1 hki)
  have hid2 : dlookup d2 "id" = none := by
    rw [dlookup_dpop_ne h2 (by decide : ("id" : String) ≠ "project")]
    exact hid1
  have hproj2 : dlookup d2 "project" = none := dlookup_dpop_self hnd1 h2
  have hprojv : dlookup d "project" = some projv := by
    rw [← dlookup_dpop_ne h1 (by decide : ("project" : String) ≠ "id")]
    exact dlookup_of_dpop h2
  have hsf2 : dlookup d2 "serialized_flow" = dlookup d "serialized_flow" :=
    hframe2 _ (by decide) (by decide)
  rcases h3 : pyGetItemStr projv "name" with e | pname <;> simp only [h3]
  · -- the project name lookup raises: id and project have been removed
    refine ⟨d2, rfl, fun k hki hkp _ => hframe2 k hki hkp, hid2, fun _ => hproj2, ?_⟩
    intro projv2 pname sfv gf _ hproj hname _ _
    rw [hprojv] at hproj
    injection hproj with he
    subst he
    rw [h3] at hname
    cases hname
  rcases h4 : dlookup d2 "serialized_flow" with _ | sfv <;> simp only [h4]
  · -- the serialized_flow lookup raises
    refine ⟨d2, rfl, fun k hki hkp _ => hframe2 k hki hkp, hid2, fun _ => hproj2, ?_⟩
    intro projv2 pname sfv gf _ _ _ hsf _
    rw [← hsf2, h4] at hsf
    cases hsf
  rcases h5 : lf sfv with e | gf <;> simp only [h5]
  · -- the graph load fails: storage has not been popped yet
    refine ⟨d2, rfl, fun k hki hkp _ => hframe2 k hki hkp, hid2, fun _ => hproj2, ?_⟩
    intro projv2 pname sfv2 gf _ _ _ hsf hlf
    rw [← hsf2, h4] at hsf
    injection hsf with he
    subst he
    rw [h5] at hlf
    cases hlf
  rcases h6 : dpop d2 "storage" with _ | ⟨stv, d3⟩ <;> simp only [h6]
  · -- the storage pop itself raises: storage was absent all along
    refine ⟨d2, rfl, fun k hki hkp _ => hframe2 k hki hkp, hid2, fun _ => hproj2, ?_⟩
    intro _ _ _ _ _ _ _ _ _
    exact dlookup_eq_none_of_dpop_none h6
  have hframe3 : ∀ k, k ≠ "id" → k ≠ "project" → k ≠ "storage" →
      dlookup d3 k = dlookup d k :=
    fun k hki hkp hks => (dlookup_dpop_ne h6 hks).trans (hframe2 k hki hkp)
  have hid3 : dlookup d3 "id" = none := by
    rw [dlookup_dpop_ne h6 (by decide : ("id" : String) ≠ "storage")]
    exact hid2
  have hproj3 : dlookup d3 "project" = none := by
    rw [dlookup_dpop_ne h6 (by decide : ("project" : String) ≠ "storage")]
    exact hproj2
  have hstor3 : dlookup d3 "storage" = none := dlookup_dpop_self hnd2 h6
  rcases h7 : ls stv with e | st <;> simp only [h7]
  · -- the storage load fails after all three pops: all three keys removed
    exact ⟨d3, rfl, hframe3, hid3, fun _ => hproj3, fun _ _ _ _ _ _ _ _ _ => hstor3⟩
  by_cases hkw : kwargsOk d3 = true
  · simp only [hkw, if_true]
    exact ⟨d3, rfl, hframe3, hid3, fun _ => hproj3, fun _ _ _ _ _ _ _ _ _ => hstor3⟩
  · simp only [Bool.not_eq_true] at hkw
    simp only [hkw, Bool.false_eq_true, if_false]
    exact ⟨d3, rfl, hframe3, hid3, fun _ => hproj3, fun _ _ _ _ _ _ _ _ _ => hstor3⟩

/-- Claim C10 witness: a concrete call whose storage loader fails — a call
that fails past the storage pop — still leaves the argument dict with `id`,
`project` and `storage` removed and every other key bound as before. -/
theorem from_flow_data_removes_popped_keys_witness :
    (from_flow_data lfW lsFailW (.dict recFieldsW)).1 =
      .error (.valueError "storage schema failure") ∧
    ∃ d3 : PyDict,
      (from_flow_data lfW lsFailW (.dict recFieldsW)).2 = .dict d3 ∧
      (∀ k, k ≠ "id" → k ≠ "project" → k ≠ "storage" →
        dlookup d3 k = dlookup recFieldsW k) ∧
      dlookup d3 "id" = none ∧ dlookup d3 "project" = none ∧
      dlookup d3 "storage" = none := by
  refine ⟨rfl, ?_⟩
  obtain ⟨d3, hout, hframe, hid, hproj, hstor⟩ :=
    from_flow_data_removes_popped_keys lfW lsFailW recFieldsW (by decide)
  exact ⟨d3, hout, hframe, hid, hproj rfl,
    hstor (.dict [("name", .str "proj")]) (.str "proj") sfW ⟨[("loaded", sfW)]⟩
      rfl rfl rfl rfl rfl⟩

end Prefect

